import Mathlib

/-!
Shallow embedding of the dataset-analysis / configuration engine of the
repository (fine-tuning-project and fine-tuning-tpu), covering:

* `_format_messages_to_text` (src/fine-tuning-project/src/data/dataset_analyzer.py,
  duplicated verbatim in dataset_splitter.py),
* `analyze_dataset_and_configure` (dataset_analyzer.py),
* `split_dataset` (dataset_splitter.py),
* `get_dynamic_lora_config` (src/fine-tuning-tpu/src/models/lora_config.py).

Conventions: Python ints are `Nat` (all quantities involved are non-negative),
Python floats that only carry ratios/VRAM sizes are `ℚ`, fallible code returns
`Except`.  Python `sorted` on a list of ints is `List.insertionSort (· ≤ ·)`
(any correct sort computes the same list on `Nat` keys).  `int(n * 0.95)` is
`19 * n / 20` in `Nat` arithmetic: for every realistic record count the float
product `n * 0.95` truncates to `⌊0.95 n⌋`.
-/

/-- A conversational message.  Python dicts may lack the `role` / `content`
keys, hence `Option`. -/
structure Msg where
  role : Option String
  content : Option String
deriving DecidableEq

/-- `_format_messages_to_text` (dataset_analyzer.py lines 2-16; the copy in
dataset_splitter.py lines 38-52 is semantically identical).  The argument is
`Option (List Msg)`: `none` models Python `None`, and `if not messages` sends
both `None` and `[]` to the empty string. -/
def _format_messages_to_text : Option (List Msg) → String
  | none => ""
  | some [] => ""
  | some msgs =>
      String.intercalate "\n"
        (msgs.map fun m => m.role.getD "user" ++ ": " ++ m.content.getD "")

/-- The flattened-text contract exactly as the spec words it: one line per
message, format "<role>: <content>" with role defaulting to "user" and content
to the empty string, lines joined with newline; empty or absent message list
gives the empty string. -/
def flattenSpec : Option (List Msg) → String
  | none => ""
  | some msgs =>
      String.intercalate "\n"
        (msgs.map fun m => m.role.getD "user" ++ ": " ++ m.content.getD "")

/-- The dynamic configuration dictionary built at dataset_analyzer.py
lines 83-89. -/
structure DynamicConfig where
  max_seq_length : Nat
  per_device_train_batch_size : Nat
  gradient_accumulation_steps : Nat
  effective_batch_size : Nat
  use_gradient_checkpointing : Bool
deriving DecidableEq

/-- `int(n * 0.95)`: the index used for the 95th percentile
(dataset_analyzer.py line 55). -/
def p95Index (n : Nat) : Nat := 19 * n / 20

/-- The 95th-percentile token length: sort ascending, take the element at
`p95Index` (dataset_analyzer.py lines 54-55).  The default `0` of `getD` is
never reached on a non-empty list since `19 n / 20 < n` for `n > 0`. -/
def p95Of (lengths : List Nat) : Nat :=
  (List.insertionSort (· ≤ ·) lengths).getD (p95Index lengths.length) 0

/-- `determined_max_seq_length` after lines 59-60 of dataset_analyzer.py:
`min(max_length, p95 + 256)` followed by `max(·, 512)`. -/
def determinedLen (lengths : List Nat) (max_length : Nat) : Nat :=
  max (min max_length (p95Of lengths + 256)) 512

/-- The VRAM/sequence-length tiering of dataset_analyzer.py lines 62-89,
applied to the already determined sequence length `d`. -/
def tierConfig (d : Nat) (vram_gb : ℚ) : DynamicConfig :=
  let bad : Nat × Nat × Nat :=
    if 16 ≤ vram_gb then
      if d ≤ 1024 then (2, 8, d)
      else if d ≤ 2048 then (1, 16, d)
      else if d ≤ 4096 then (1, 32, d)
      else (1, 64, min d 8192)
    else (1, 16, d)
  { max_seq_length := bad.2.2
    per_device_train_batch_size := bad.1
    gradient_accumulation_steps := bad.2.1
    effective_batch_size := bad.1 * bad.2.1
    use_gradient_checkpointing := true }

/-- The length-driven part of `analyze_dataset_and_configure`
(dataset_analyzer.py lines 53-89): percentile, clamping, tiering.
`none` models the Python `IndexError` raised at line 55 when the dataset is
empty (`lengths[int(0 * 0.95)]` on an empty list). -/
def configureFromLengths (lengths : List Nat) (max_length : Nat)
    (vram_gb : ℚ) : Option DynamicConfig :=
  if lengths = [] then none
  else some (tierConfig (determinedLen lengths max_length) vram_gb)

/-- `clamp` as the spec's sizing formula uses it: apply the upper bound `hi`
first, then the floor `lo` (the code's `max(min(max_length, p95+256), 512)`
order). -/
def clamp (x lo hi : Nat) : Nat := max (min x hi) lo

/-- The error outcomes of `analyze_dataset_and_configure`. -/
inductive AnalyzeError where
  | missingField (field : String)
  | derivationFailure
  | indexError
deriving DecidableEq

/-- A column-level model of a Hugging Face dataset as the analyzer uses it:
the list of column names, and per row the value of the `messages` column
(`none` models a null entry). -/
structure HFDataset where
  column_names : List String
  rows : List (Option (List Msg))

/-- `analyze_dataset_and_configure` (dataset_analyzer.py lines 18-97), with
the tokenizer abstracted as a function `tok` from text to token count.
The `map` at lines 29-34 adds (or overwrites) a `text` column computed by
`_format_messages_to_text`; the defensive check at lines 39-40 is kept as in
the source.  The returned dataset is omitted: only the configuration is
relevant to the verified properties. -/
def analyze_dataset_and_configure (ds : HFDataset) (tok : String → Nat)
    (max_length : Nat) (vram_gb : ℚ) : Except AnalyzeError DynamicConfig :=
  if "messages" ∉ ds.column_names then .error (.missingField "messages")
  else
    let texts := ds.rows.map _format_messages_to_text
    let cols' := if "text" ∈ ds.column_names then ds.column_names
                 else ds.column_names ++ ["text"]
    if "text" ∉ cols' then .error .derivationFailure
    else
      match configureFromLengths (texts.map tok) max_length vram_gb with
      | none => .error .indexError
      | some cfg => .ok cfg

/-- Linear congruential step driving the modelled shuffle. -/
def lcg (s : Nat) : Nat := (1103515245 * s + 12345) % 2147483648

/-- Modelled from the spec: the "seeded pseudo-random shuffle" performed by
the dataset collaborator's `train_test_split` (the datasets library is not
part of this repository).  Fisher-Yates driven by `lcg`, with the list length
as structural fuel. -/
def shuffleGo : Nat → Nat → List α → List α
  | 0, _, l => l
  | fuel + 1, seed, l =>
      match l.drop (seed % l.length) with
      | [] => l
      | x :: _ =>
          x :: shuffleGo fuel (lcg seed)
                (l.take (seed % l.length) ++ l.drop (seed % l.length + 1))

/-- Seeded deterministic shuffle of a list. -/
def shuffle (seed : Nat) (l : List α) : List α := shuffleGo l.length seed l

/-- Modelled from the spec: the dataset collaborator's random-seeded binary
split by fraction (`dataset.train_test_split(test_size=f, seed=s)`), returning
the pair in the `.values()` order `(train, test)`.  The test partition takes
`⌈f * n⌉` records of the shuffled dataset, the train partition the rest. -/
def train_test_split (ds : List α) (test_size : ℚ) (seed : Nat) :
    List α × List α :=
  let shuffled := shuffle seed ds
  let nTest := ⌈test_size * ds.length⌉₊
  (shuffled.drop nTest, shuffled.take nTest)

/-- Failure modes of `split_dataset`: the `assert` at dataset_splitter.py
line 13, whose `AssertionError` carries the fixed message string of the
source (and nothing else), and the Python `ZeroDivisionError` raised at
line 23 when `train_ratio + val_ratio` is zero. -/
inductive SplitError where
  | invalidConfiguration (msg : String)
  | divisionByZero
deriving DecidableEq

/-- `split_dataset` (dataset_splitter.py lines 5-35): validate the ratio sum,
split off the test partition, then split the remainder into train and
validation with the renormalized ratio `val_ratio / (train_ratio + val_ratio)`.
The zero-denominator branch models the `ZeroDivisionError` Python raises at
the division at line 23; in Python it is raised after the (pure, effect-free)
first split has run, so the observable outcome is the same. -/
def split_dataset {α : Type} (ds : List α) (train_ratio val_ratio test_ratio : ℚ)
    (seed : Nat) : Except SplitError (List α × List α × List α) :=
  if ¬ (|train_ratio + val_ratio + test_ratio - 1| < 1 / 1000000) then
    .error (.invalidConfiguration "Ratios must sum to 1.0")
  else if train_ratio + val_ratio = 0 then .error .divisionByZero
  else
    .ok ((train_test_split (train_test_split ds test_ratio seed).1
            (val_ratio / (train_ratio + val_ratio)) seed).1,
         (train_test_split (train_test_split ds test_ratio seed).1
            (val_ratio / (train_ratio + val_ratio)) seed).2,
         (train_test_split ds test_ratio seed).2)

/-- The LoRA configuration dictionary of lora_config.py lines 46-55. -/
structure LoraConfig where
  r : Nat
  lora_alpha : Nat
  target_modules : List String
  lora_dropout : Nat
  bias : String
  task_type : String
  use_rslora : Bool
  use_gradient_checkpointing : String
deriving DecidableEq

/-- Lowercased character list of a model name (`model_name.lower()`); Python
substring tests become `List.IsInfix` on the character lists. -/
def lowerChars (s : String) : List Char := s.data.map Char.toLower

/-- `get_dynamic_lora_config` (lora_config.py lines 14-67).  `max_seq_length`
is accepted and ignored by the selection logic, as in the source. -/
def get_dynamic_lora_config (model_name : String) (max_seq_length : Nat) :
    LoraConfig :=
  let m := lowerChars model_name
  let ra : Nat × Nat :=
    if "0.5b".data <:+: m ∨ "0.6b".data <:+: m ∨ "270m".data <:+: m then (8, 16)
    else if "1.5b".data <:+: m ∨ "1b".data <:+: m ∨ "1.7b".data <:+: m then (16, 32)
    else if "6b".data <:+: m ∨ "7b".data <:+: m then (32, 64)
    else (16, 32)
  { r := ra.1
    lora_alpha := ra.2
    target_modules := ["q_proj", "k_proj", "v_proj", "o_proj",
                       "gate_proj", "up_proj", "down_proj"]
    lora_dropout := 0
    bias := "none"
    task_type := "CAUSAL_LM"
    use_rslora := decide ("6b".data <:+: m ∨ "7b".data <:+: m)
    use_gradient_checkpointing := "unsloth" }

/-- The spec's rank/alpha tier table, as an explicit ordered list of
(pattern set, result) rules. -/
def loraTierTable : List (List String × (Nat × Nat)) :=
  [(["0.5b", "0.6b", "270m"], (8, 16)),
   (["1.5b", "1b", "1.7b"], (16, 32)),
   (["6b", "7b"], (32, 64))]

/-- First-match-wins evaluation of a tier table against a lowercased name,
with the spec's default `(16, 32)` when no rule matches. -/
def firstMatchRankAlpha (m : List Char) :
    List (List String × (Nat × Nat)) → Nat × Nat
  | [] => (16, 32)
  | (pats, ra) :: rest =>
      if pats.any (fun p => decide (p.data <:+: m)) then ra
      else firstMatchRankAlpha m rest

/-- Rank/alpha selection exactly as the spec words it: case-insensitive
substring rules checked in priority order, first match wins. -/
def specRankAlpha (model_name : String) : Nat × Nat :=
  firstMatchRankAlpha (lowerChars model_name) loraTierTable

/-! ### Helper lemmas -/

theorem configureFromLengths_eq (lengths : List Nat) (ml : Nat) (v : ℚ)
    (h : lengths ≠ []) :
    configureFromLengths lengths ml v
      = some (tierConfig (determinedLen lengths ml) v) := by
  simp [configureFromLengths, h]

theorem tierConfig_max_seq (d : Nat) (v : ℚ) :
    (tierConfig d v).max_seq_length
      = if 16 ≤ v ∧ 4096 < d then min d 8192 else d := by
  unfold tierConfig
  split_ifs <;> simp_all <;> omega

theorem tierConfig_batch (d : Nat) (v : ℚ) :
    ((tierConfig d v).per_device_train_batch_size,
     (tierConfig d v).gradient_accumulation_steps)
      = if 16 ≤ v then
          if d ≤ 1024 then (2, 8)
          else if d ≤ 2048 then (1, 16)
          else if d ≤ 4096 then (1, 32)
          else (1, 64)
        else (1, 16) := by
  unfold tierConfig
  split_ifs <;> simp_all

theorem tierConfig_effective (d : Nat) (v : ℚ) :
    (tierConfig d v).effective_batch_size
      = (tierConfig d v).per_device_train_batch_size *
        (tierConfig d v).gradient_accumulation_steps := by
  unfold tierConfig
  split_ifs <;> rfl

theorem tierConfig_gc (d : Nat) (v : ℚ) :
    (tierConfig d v).use_gradient_checkpointing = true := by
  unfold tierConfig
  split_ifs <;> rfl

theorem shuffleGo_perm {α : Type} (fuel : Nat) :
    ∀ (seed : Nat) (l : List α), (shuffleGo fuel seed l).Perm l := by
  induction fuel with
  | zero => intro seed l; exact List.Perm.refl _
  | succ n ih =>
    intro seed l
    match l with
    | [] => rw [shuffleGo, List.drop_nil]
    | a :: t =>
      have hi : seed % (a :: t).length < (a :: t).length :=
        Nat.mod_lt _ (by simp)
      have hd : (a :: t).drop (seed % (a :: t).length)
          = (a :: t)[seed % (a :: t).length] ::
            (a :: t).drop (seed % (a :: t).length + 1) :=
        (List.getElem_cons_drop _ _ hi).symm
      rw [shuffleGo, hd]
      have hsplit : (a :: t).take (seed % (a :: t).length)
            ++ (a :: t)[seed % (a :: t).length] ::
               (a :: t).drop (seed % (a :: t).length + 1) = a :: t := by
        rw [List.getElem_cons_drop, List.take_append_drop]
      refine ((ih (lcg seed) _).cons _).trans ?_
      conv_rhs => rw [← hsplit]
      exact List.perm_middle.symm

theorem shuffle_perm {α : Type} (seed : Nat) (l : List α) :
    (shuffle seed l).Perm l :=
  shuffleGo_perm _ _ _

theorem train_test_split_perm {α : Type} (ds : List α) (f : ℚ) (seed : Nat) :
    ((train_test_split ds f seed).1 ++ (train_test_split ds f seed).2).Perm ds := by
  unfold train_test_split
  refine List.Perm.trans List.perm_append_comm ?_
  rw [List.take_append_drop]
  exact shuffle_perm seed ds

/-- C4 (amended): for every dataset and every ratio triple whose sum is
within `1e-6` of `1` and whose train+validation mass is non-zero,
`split_dataset` succeeds and the three returned partitions are an exact
partition of the input: their sizes sum to the dataset size and their
concatenation is a permutation of the dataset (so, as index sets, they are
pairwise disjoint with union the whole dataset); re-running with identical
arguments gives the identical result (the function is deterministic in its
arguments).  The original claim, quantified over every ratio triple
satisfying the precondition, fails at `train_ratio = val_ratio = 0`. -/
theorem split_dataset_exact {α : Type} (ds : List α) (tr vr te : ℚ)
    (seed : Nat) (hsum : |tr + vr + te - 1| < 1 / 1000000)
    (hnz : tr + vr ≠ 0) :
    ∃ train val test,
      split_dataset ds tr vr te seed = .ok (train, val, test) ∧
      train.length + val.length + test.length = ds.length ∧
      ((train ++ val) ++ test).Perm ds ∧
      split_dataset ds tr vr te seed = split_dataset ds tr vr te seed := by
  have heq : split_dataset ds tr vr te seed
      = .ok ((train_test_split (train_test_split ds te seed).1
                (vr / (tr + vr)) seed).1,
             (train_test_split (train_test_split ds te seed).1
                (vr / (tr + vr)) seed).2,
             (train_test_split ds te seed).2) := by
    unfold split_dataset
    rw [if_neg (not_not_intro hsum), if_neg hnz]
  refine ⟨_, _, _, heq, ?_, ?_, rfl⟩
  · have hp : (((train_test_split (train_test_split ds te seed).1
          (vr / (tr + vr)) seed).1
        ++ (train_test_split (train_test_split ds te seed).1
          (vr / (tr + vr)) seed).2)
        ++ (train_test_split ds te seed).2).Perm ds :=
      ((train_test_split_perm _ _ _).append
        (List.Perm.refl _)).trans (train_test_split_perm _ _ _)
    have := hp.length_eq
    simp [List.length_append] at this
    omega
  · exact ((train_test_split_perm _ _ _).append
      (List.Perm.refl _)).trans (train_test_split_perm _ _ _)

/-- C8: with the ratio triple `(0, 0, 1)` — which satisfies the stated
precondition, the sum being exactly `1` — `split_dataset` evaluates
`val_ratio / (train_ratio + val_ratio)` with a zero denominator and fails
with the division-by-zero error instead of returning a partition. -/
theorem split_zero_denominator {α : Type} (ds : List α) (seed : Nat) :
    |(0 : ℚ) + 0 + 1 - 1| < 1 / 1000000 ∧
    split_dataset ds 0 0 1 seed = .error .divisionByZero := by
  have h0 : |(0 : ℚ) + 0 + 1 - 1| < 1 / 1000000 := by norm_num
  refine ⟨h0, ?_⟩
  unfold split_dataset
  rw [if_neg (not_not_intro h0), if_pos (by norm_num)]

/-- C8 witness. -/
theorem split_zero_denominator_witness :
    |(0 : ℚ) + 0 + 1 - 1| < 1 / 1000000 ∧
    split_dataset ([0, 1, 2] : List Nat) 0 0 1 42 = .error .divisionByZero :=
  split_zero_denominator [0, 1, 2] 42

/-- C5 (amended): `split_dataset` fails with the invalid-configuration
error — the fixed assert message "Ratios must sum to 1.0", which does
not list the offending sum — exactly when the ratio sum is not within
`1e-6` of `1`; in particular the triple `(0.7, 0.2, 0.05)` (sum `0.95`)
is rejected.  The claimed "listing the offending sum" is false
of the source: the assert message is a constant. -/
theorem split_ratio_validation {α : Type} (ds : List α) (tr vr te : ℚ)
    (seed : Nat) :
    (split_dataset ds tr vr te seed
        = .error (.invalidConfiguration "Ratios must sum to 1.0")
      ↔ ¬ (|tr + vr + te - 1| < 1 / 1000000)) ∧
    split_dataset ds (7 / 10) (2 / 10) (5 / 100) 1
      = .error (.invalidConfiguration "Ratios must sum to 1.0") := by
  constructor
  · by_cases hc : |tr + vr + te - 1| < 1 / 1000000
    · unfold split_dataset
      rw [if_neg (not_not_intro hc)]
      by_cases hz : tr + vr = 0
      · rw [if_pos hz]; exact iff_of_false (by simp) (not_not_intro hc)
      · rw [if_neg hz]; exact iff_of_false (by simp) (not_not_intro hc)
    · unfold split_dataset
      rw [if_pos hc]
      exact iff_of_true rfl hc
  · have hbad : ¬ (|(7 : ℚ) / 10 + 2 / 10 + 5 / 100 - 1| < 1 / 1000000) := by
      have h1 : (7 : ℚ) / 10 + 2 / 10 + 5 / 100 - 1 = -(1 / 20) := by norm_num
      rw [h1, abs_neg, abs_of_nonneg (by norm_num : (0 : ℚ) ≤ 1 / 20)]
      norm_num
    unfold split_dataset
    rw [if_pos hbad]

/-- C5 counterexample: two violating calls whose offending sums differ
(0.95 and 0) produce the identical error value, so the raised error does
not list the offending sum. -/
theorem split_ratio_validation_cex :
    split_dataset ([0] : List Nat) (7 / 10) (2 / 10) (5 / 100) 1
      = .error (.invalidConfiguration "Ratios must sum to 1.0") ∧
    split_dataset ([0] : List Nat) 0 0 0 1
      = .error (.invalidConfiguration "Ratios must sum to 1.0") := by
  constructor
  · have hbad : ¬ (|(7 : ℚ) / 10 + 2 / 10 + 5 / 100 - 1| < 1 / 1000000) := by
      have h1 : (7 : ℚ) / 10 + 2 / 10 + 5 / 100 - 1 = -(1 / 20) := by norm_num
      rw [h1, abs_neg, abs_of_nonneg (by norm_num : (0 : ℚ) ≤ 1 / 20)]
      norm_num
    unfold split_dataset
    rw [if_pos hbad]
  · have hbad : ¬ (|(0 : ℚ) + 0 + 0 - 1| < 1 / 1000000) := by
      have h1 : (0 : ℚ) + 0 + 0 - 1 = -1 := by norm_num
      rw [h1, abs_neg, abs_one]
      norm_num
    unfold split_dataset
    rw [if_pos hbad]

theorem ratioSumOk : |(7 : ℚ) / 10 + 2 / 10 + 1 / 10 - 1| < 1 / 1000000 := by
  norm_num

theorem ratioTrainValNZ : (7 : ℚ) / 10 + 2 / 10 ≠ 0 := by norm_num

/-- C4 witness: the exact-partition property at a concrete 10-record dataset
with ratios (0.7, 0.2, 0.1) and seed 42. -/
theorem split_dataset_exact_witness :
    ∃ train val test,
      split_dataset ([0, 1, 2, 3, 4, 5, 6, 7, 8, 9] : List Nat)
          (7 / 10) (2 / 10) (1 / 10) 42 = .ok (train, val, test) ∧
      train.length + val.length + test.length
        = ([0, 1, 2, 3, 4, 5, 6, 7, 8, 9] : List Nat).length ∧
      ((train ++ val) ++ test).Perm [0, 1, 2, 3, 4, 5, 6, 7, 8, 9] ∧
      split_dataset ([0, 1, 2, 3, 4, 5, 6, 7, 8, 9] : List Nat)
          (7 / 10) (2 / 10) (1 / 10) 42
        = split_dataset ([0, 1, 2, 3, 4, 5, 6, 7, 8, 9] : List Nat)
            (7 / 10) (2 / 10) (1 / 10) 42 :=
  split_dataset_exact [0, 1, 2, 3, 4, 5, 6, 7, 8, 9]
    (7 / 10) (2 / 10) (1 / 10) 42 ratioSumOk ratioTrainValNZ

/-- C4 counterexample: the triple (0, 0, 1) satisfies the claim's stated
precondition (ratio sum exactly 1) yet `split_dataset` returns no partition
at all: it fails with the division-by-zero error. -/
theorem split_dataset_exact_cex :
    |(0 : ℚ) + 0 + 1 - 1| < 1 / 1000000 ∧
    split_dataset ([0] : List Nat) 0 0 1 42 = .error .divisionByZero ∧
    ¬ ∃ train val test,
        split_dataset ([0] : List Nat) 0 0 1 42 = .ok (train, val, test) := by
  have h0 : |(0 : ℚ) + 0 + 1 - 1| < 1 / 1000000 := by norm_num
  have herr : split_dataset ([0] : List Nat) 0 0 1 42
      = .error .divisionByZero := by
    unfold split_dataset
    rw [if_neg (not_not_intro h0), if_pos (by norm_num)]
  refine ⟨h0, herr, ?_⟩
  rintro ⟨train, val, test, hok⟩
  rw [herr] at hok
  exact absurd hok (by simp)

/-- C1 (amended): for every non-empty length list, the analyzer sorts the
lengths ascending, reads the 95th percentile at index `⌊0.95 N⌋`, and sets
`max_seq_length = clamp(min(max_length, p95 + 256), 512, max_length)` (with
the 512 floor applied after the `max_length` cap), except that when VRAM is
at least 16 GB and the clamped value exceeds 4096 the result is additionally
capped at 8192; for lengths `[100]*94 ++ [5000]` and `max_length = 32768`
the result is 512.  The original claim omits the 8192 cap. -/
theorem analyze_p95_sizing (lengths : List Nat) (ml : Nat) (vram : ℚ)
    (h : lengths ≠ []) :
    configureFromLengths lengths ml vram
      = some (tierConfig (determinedLen lengths ml) vram) ∧
    List.Sorted (· ≤ ·) (List.insertionSort (· ≤ ·) lengths) ∧
    (List.insertionSort (· ≤ ·) lengths).Perm lengths ∧
    determinedLen lengths ml = clamp (min ml (p95Of lengths + 256)) 512 ml ∧
    (tierConfig (determinedLen lengths ml) vram).max_seq_length
      = (if 16 ≤ vram ∧ 4096 < determinedLen lengths ml
         then min (determinedLen lengths ml) 8192
         else determinedLen lengths ml) ∧
    (tierConfig (determinedLen (List.replicate 94 100 ++ [5000]) 32768)
        vram).max_seq_length = 512 := by
  refine ⟨configureFromLengths_eq _ _ _ h, List.sorted_insertionSort _ _,
    List.perm_insertionSort _ _, ?_, tierConfig_max_seq _ _, ?_⟩
  · unfold determinedLen clamp
    rw [min_eq_left (min_le_left ml (p95Of lengths + 256))]
  · have hdl : determinedLen (List.replicate 94 100 ++ [5000]) 32768 = 512 := by
      decide
    rw [hdl, tierConfig_max_seq]
    simp

/-- C1 witness: the sizing property at lengths [300], max_length 2048,
16 GB VRAM. -/
theorem analyze_p95_sizing_witness :
    configureFromLengths [300] 2048 16
      = some (tierConfig (determinedLen [300] 2048) 16) ∧
    List.Sorted (· ≤ ·) (List.insertionSort (· ≤ ·) [300]) ∧
    (List.insertionSort (· ≤ ·) [300]).Perm [300] ∧
    determinedLen [300] 2048 = clamp (min 2048 (p95Of [300] + 256)) 512 2048 ∧
    (tierConfig (determinedLen [300] 2048) 16).max_seq_length
      = (if 16 ≤ (16 : ℚ) ∧ 4096 < determinedLen [300] 2048
         then min (determinedLen [300] 2048) 8192
         else determinedLen [300] 2048) ∧
    (tierConfig (determinedLen (List.replicate 94 100 ++ [5000]) 32768)
        (16 : ℚ)).max_seq_length = 512 :=
  analyze_p95_sizing [300] 2048 16 (by decide)

/-- C1 counterexample: at lengths [9000] with max_length 32768 and 16 GB,
the returned max_seq_length is 8192, not the claimed clamp value 9256. -/
theorem analyze_p95_sizing_cex :
    (configureFromLengths [9000] 32768 16).map DynamicConfig.max_seq_length
      = some 8192 ∧
    clamp (min 32768 (p95Of [9000] + 256)) 512 32768 = 9256 ∧
    (configureFromLengths [9000] 32768 16).map DynamicConfig.max_seq_length
      ≠ some (clamp (min 32768 (p95Of [9000] + 256)) 512 32768) := by
  decide

/-- C2 (amended): whenever the caller-supplied `max_length` is at least the
512 floor, the configured `max_seq_length` never exceeds `max_length`.  The
original unconditional claim fails for `max_length < 512`, where the floor
wins. -/
theorem max_seq_within_limit (lengths : List Nat) (ml : Nat) (vram : ℚ)
    (h : lengths ≠ []) (hml : 512 ≤ ml) :
    configureFromLengths lengths ml vram
      = some (tierConfig (determinedLen lengths ml) vram) ∧
    (tierConfig (determinedLen lengths ml) vram).max_seq_length ≤ ml := by
  refine ⟨configureFromLengths_eq _ _ _ h, ?_⟩
  have hd : determinedLen lengths ml ≤ ml := max_le (min_le_left _ _) hml
  rw [tierConfig_max_seq]
  split_ifs with h1
  · exact le_trans (min_le_left _ _) hd
  · exact hd

/-- C2 witness: at lengths [100], max_length 1024, 16 GB VRAM. -/
theorem max_seq_within_limit_witness :
    configureFromLengths [100] 1024 16
      = some (tierConfig (determinedLen [100] 1024) 16) ∧
    (tierConfig (determinedLen [100] 1024) 16).max_seq_length ≤ 1024 :=
  max_seq_within_limit [100] 1024 16 (by decide) (by decide)

/-- C2 counterexample: with `max_length = 256` (below the 512 floor) the
analyzer returns `max_seq_length = 512 > 256`: the result exceeds the
caller-supplied `max_length`. -/
theorem max_seq_within_limit_cex :
    (configureFromLengths [0] 256 16).map DynamicConfig.max_seq_length
      = some 512 ∧
    ¬ (512 ≤ 256) := by decide

/-- C3: with at least 16 GB the (batch size, accumulation steps) pair is
selected by the determined-sequence-length bucket — ≤1024 → (2, 8),
≤2048 → (1, 16), ≤4096 → (1, 32), otherwise (1, 64) with `max_seq_length`
additionally capped at 8192; below 16 GB the defaults (1, 16) stand; the
effective batch size is always the product and gradient checkpointing is
always on. -/
theorem batch_tier_table (lengths : List Nat) (ml : Nat) (vram : ℚ)
    (h : lengths ≠ []) :
    configureFromLengths lengths ml vram
      = some (tierConfig (determinedLen lengths ml) vram) ∧
    ((tierConfig (determinedLen lengths ml) vram).per_device_train_batch_size,
     (tierConfig (determinedLen lengths ml) vram).gradient_accumulation_steps)
      = (if 16 ≤ vram then
           if determinedLen lengths ml ≤ 1024 then (2, 8)
           else if determinedLen lengths ml ≤ 2048 then (1, 16)
           else if determinedLen lengths ml ≤ 4096 then (1, 32)
           else (1, 64)
         else (1, 16)) ∧
    (tierConfig (determinedLen lengths ml) vram).max_seq_length
      = (if 16 ≤ vram ∧ 4096 < determinedLen lengths ml
         then min (determinedLen lengths ml) 8192
         else determinedLen lengths ml) ∧
    (tierConfig (determinedLen lengths ml) vram).effective_batch_size
      = (tierConfig (determinedLen lengths ml) vram).per_device_train_batch_size
        * (tierConfig (determinedLen lengths ml) vram).gradient_accumulation_steps ∧
    (tierConfig (determinedLen lengths ml) vram).use_gradient_checkpointing
      = true :=
  ⟨configureFromLengths_eq _ _ _ h, tierConfig_batch _ _,
   tierConfig_max_seq _ _, tierConfig_effective _ _, tierConfig_gc _ _⟩

/-- C3 witness: lengths [644] (determined length 900) with max_length 2048
and 16 GB VRAM land in the (2, 8) tier. -/
theorem batch_tier_table_witness :
    configureFromLengths [644] 2048 16
      = some (tierConfig (determinedLen [644] 2048) 16) ∧
    ((tierConfig (determinedLen [644] 2048) 16).per_device_train_batch_size,
     (tierConfig (determinedLen [644] 2048) 16).gradient_accumulation_steps)
      = (if 16 ≤ (16 : ℚ) then
           if determinedLen [644] 2048 ≤ 1024 then (2, 8)
           else if determinedLen [644] 2048 ≤ 2048 then (1, 16)
           else if determinedLen [644] 2048 ≤ 4096 then (1, 32)
           else (1, 64)
         else (1, 16)) ∧
    (tierConfig (determinedLen [644] 2048) 16).max_seq_length
      = (if 16 ≤ (16 : ℚ) ∧ 4096 < determinedLen [644] 2048
         then min (determinedLen [644] 2048) 8192
         else determinedLen [644] 2048) ∧
    (tierConfig (determinedLen [644] 2048) 16).effective_batch_size
      = (tierConfig (determinedLen [644] 2048) 16).per_device_train_batch_size
        * (tierConfig (determinedLen [644] 2048) 16).gradient_accumulation_steps ∧
    (tierConfig (determinedLen [644] 2048) 16).use_gradient_checkpointing
      = true :=
  batch_tier_table [644] 2048 16 (by decide)

/-- C6: rank/alpha are chosen exactly as the spec's ordered first-match-wins
tier table prescribes; the target module set is always the seven attention
and MLP projections; a name matching no tier pattern gets the default
(16, 32) with rank-stabilized scaling disabled. -/
theorem lora_tiering (name : String) (msl : Nat) :
    ((get_dynamic_lora_config name msl).r,
     (get_dynamic_lora_config name msl).lora_alpha) = specRankAlpha name ∧
    (get_dynamic_lora_config name msl).target_modules
      = ["q_proj", "k_proj", "v_proj", "o_proj",
         "gate_proj", "up_proj", "down_proj"] ∧
    ((¬ ("0.5b".data <:+: lowerChars name) ∧
      ¬ ("0.6b".data <:+: lowerChars name) ∧
      ¬ ("270m".data <:+: lowerChars name) ∧
      ¬ ("1.5b".data <:+: lowerChars name) ∧
      ¬ ("1b".data <:+: lowerChars name) ∧
      ¬ ("1.7b".data <:+: lowerChars name) ∧
      ¬ ("6b".data <:+: lowerChars name) ∧
      ¬ ("7b".data <:+: lowerChars name)) →
      (get_dynamic_lora_config name msl).r = 16 ∧
      (get_dynamic_lora_config name msl).lora_alpha = 32 ∧
      (get_dynamic_lora_config name msl).use_rslora = false) := by
  refine ⟨?_, rfl, ?_⟩
  · unfold get_dynamic_lora_config
    simp only [specRankAlpha, loraTierTable, firstMatchRankAlpha,
      List.any_cons, List.any_nil, Bool.or_eq_true, Bool.or_false,
      decide_eq_true_eq]
  · rintro ⟨n1, n2, n3, n4, n5, n6, n7, n8⟩
    unfold get_dynamic_lora_config
    simp [n1, n2, n3, n4, n5, n6, n7, n8]

/-- C6 witness: the tiering property at the model name "unknown-model-xyz",
which matches no tier pattern. -/
theorem lora_tiering_witness :
    ((get_dynamic_lora_config "unknown-model-xyz" 2048).r,
     (get_dynamic_lora_config "unknown-model-xyz" 2048).lora_alpha)
      = specRankAlpha "unknown-model-xyz" ∧
    (get_dynamic_lora_config "unknown-model-xyz" 2048).target_modules
      = ["q_proj", "k_proj", "v_proj", "o_proj",
         "gate_proj", "up_proj", "down_proj"] ∧
    ((¬ ("0.5b".data <:+: lowerChars "unknown-model-xyz") ∧
      ¬ ("0.6b".data <:+: lowerChars "unknown-model-xyz") ∧
      ¬ ("270m".data <:+: lowerChars "unknown-model-xyz") ∧
      ¬ ("1.5b".data <:+: lowerChars "unknown-model-xyz") ∧
      ¬ ("1b".data <:+: lowerChars "unknown-model-xyz") ∧
      ¬ ("1.7b".data <:+: lowerChars "unknown-model-xyz") ∧
      ¬ ("6b".data <:+: lowerChars "unknown-model-xyz") ∧
      ¬ ("7b".data <:+: lowerChars "unknown-model-xyz")) →
      (get_dynamic_lora_config "unknown-model-xyz" 2048).r = 16 ∧
      (get_dynamic_lora_config "unknown-model-xyz" 2048).lora_alpha = 32 ∧
      (get_dynamic_lora_config "unknown-model-xyz" 2048).use_rslora = false) :=
  lora_tiering "unknown-model-xyz" 2048

/-- C7: any model name containing "0.6b" (case-insensitively) lands in the
small-model tier (rank 8, alpha 16) yet has rank-stabilized scaling enabled,
because the rslora test looks for "6b" and "0.6b" contains "6b". -/
theorem lora_06b_rslora (name : String) (msl : Nat)
    (h : "0.6b".data <:+: lowerChars name) :
    (get_dynamic_lora_config name msl).r = 8 ∧
    (get_dynamic_lora_config name msl).lora_alpha = 16 ∧
    (get_dynamic_lora_config name msl).use_rslora = true := by
  have h66 : "6b".data <:+: "0.6b".data := by decide
  have h6 : "6b".data <:+: lowerChars name := h66.trans h
  unfold get_dynamic_lora_config
  simp [h, h6]

/-- C7 witness: "Qwen/Qwen3-0.6B" gets rank 8, alpha 16, and rslora on. -/
theorem lora_06b_rslora_witness :
    (get_dynamic_lora_config "Qwen/Qwen3-0.6B" 2048).r = 8 ∧
    (get_dynamic_lora_config "Qwen/Qwen3-0.6B" 2048).lora_alpha = 16 ∧
    (get_dynamic_lora_config "Qwen/Qwen3-0.6B" 2048).use_rslora = true :=
  lora_06b_rslora "Qwen/Qwen3-0.6B" 2048 (by decide)

/-- C9: the flattener agrees everywhere with the spec's formula (one line
per message in input order, "<role>: <content>" with defaults "user" and "",
joined by newline), is deterministic, returns the empty string on an empty
or absent message list, and maps the singleton user/hi message to
"user: hi". -/
theorem flatten_refines_spec (m : Option (List Msg)) :
    _format_messages_to_text m = flattenSpec m ∧
    _format_messages_to_text m = _format_messages_to_text m ∧
    _format_messages_to_text none = "" ∧
    _format_messages_to_text (some []) = "" ∧
    _format_messages_to_text (some [⟨some "user", some "hi"⟩]) = "user: hi" := by
  refine ⟨?_, rfl, rfl, rfl, rfl⟩
  match m with
  | none => rfl
  | some [] => rfl
  | some (x :: xs) => rfl

/-- C9 witness: the refinement at a two-message conversation. -/
theorem flatten_refines_spec_witness :
    _format_messages_to_text
        (some [⟨some "system", some "s"⟩, ⟨none, none⟩])
      = flattenSpec (some [⟨some "system", some "s"⟩, ⟨none, none⟩]) ∧
    _format_messages_to_text
        (some [⟨some "system", some "s"⟩, ⟨none, none⟩])
      = _format_messages_to_text
          (some [⟨some "system", some "s"⟩, ⟨none, none⟩]) ∧
    _format_messages_to_text none = "" ∧
    _format_messages_to_text (some []) = "" ∧
    _format_messages_to_text (some [⟨some "user", some "hi"⟩]) = "user: hi" :=
  flatten_refines_spec (some [⟨some "system", some "s"⟩, ⟨none, none⟩])

/-- C10 (amended): the analyzer fails with `missingField "messages"` exactly
when the dataset lacks a `messages` column; when `messages` is present the
defensive derivation-failure check never fires (the `text` column always
exists after normalization), and for a non-empty dataset the function
returns normally.  The original claim asserts a normal return for every
dataset with `messages`; an empty dataset instead hits the percentile
index error. -/
theorem analyze_missing_field (ds : HFDataset) (tok : String → Nat)
    (ml : Nat) (vram : ℚ) :
    (analyze_dataset_and_configure ds tok ml vram
        = .error (.missingField "messages")
      ↔ "messages" ∉ ds.column_names) ∧
    ("messages" ∈ ds.column_names →
      analyze_dataset_and_configure ds tok ml vram
        ≠ .error .derivationFailure) ∧
    ("messages" ∈ ds.column_names → ds.rows ≠ [] →
      analyze_dataset_and_configure ds tok ml vram
        = .ok (tierConfig
            (determinedLen ((ds.rows.map _format_messages_to_text).map tok) ml)
            vram)) := by
  have htext : "text" ∈ (if "text" ∈ ds.column_names then ds.column_names
      else ds.column_names ++ ["text"]) := by
    by_cases ht : "text" ∈ ds.column_names <;> simp [ht]
  constructor
  · by_cases hm : "messages" ∈ ds.column_names
    · unfold analyze_dataset_and_configure
      rw [if_neg (not_not_intro hm), if_neg (not_not_intro htext)]
      refine iff_of_false ?_ (not_not_intro hm)
      rcases hcfg : configureFromLengths ((ds.rows.map _format_messages_to_text).map tok) ml vram
        with _ | cfg <;> simp [hcfg]
    · unfold analyze_dataset_and_configure
      rw [if_pos hm]
      exact iff_of_true rfl hm
  constructor
  · intro hm
    unfold analyze_dataset_and_configure
    rw [if_neg (not_not_intro hm), if_neg (not_not_intro htext)]
    rcases hcfg : configureFromLengths ((ds.rows.map _format_messages_to_text).map tok) ml vram
      with _ | cfg <;> simp [hcfg]
  · intro hm hrows
    unfold analyze_dataset_and_configure
    rw [if_neg (not_not_intro hm), if_neg (not_not_intro htext)]
    have hne : (ds.rows.map _format_messages_to_text).map tok ≠ [] := by
      simp [hrows]
    rw [configureFromLengths_eq _ _ _ hne]

/-- C10 witness: a one-row dataset with a `messages` column is analyzed
normally, and a dataset without the column is rejected with the
missing-field error. -/
theorem analyze_missing_field_witness :
    (analyze_dataset_and_configure
          ⟨["messages"], [some [⟨some "user", some "hi"⟩]]⟩
          String.length 1024 16
        = .error (.missingField "messages")
      ↔ "messages" ∉ (⟨["messages"],
          [some [⟨some "user", some "hi"⟩]]⟩ : HFDataset).column_names) ∧
    ("messages" ∈ (⟨["messages"],
          [some [⟨some "user", some "hi"⟩]]⟩ : HFDataset).column_names →
      analyze_dataset_and_configure
          ⟨["messages"], [some [⟨some "user", some "hi"⟩]]⟩
          String.length 1024 16
        ≠ .error .derivationFailure) ∧
    ("messages" ∈ (⟨["messages"],
          [some [⟨some "user", some "hi"⟩]]⟩ : HFDataset).column_names →
      (⟨["messages"], [some [⟨some "user", some "hi"⟩]]⟩ : HFDataset).rows ≠ [] →
      analyze_dataset_and_configure
          ⟨["messages"], [some [⟨some "user", some "hi"⟩]]⟩
          String.length 1024 16
        = .ok (tierConfig
            (determinedLen
              (((⟨["messages"], [some [⟨some "user", some "hi"⟩]]⟩ :
                  HFDataset).rows.map _format_messages_to_text).map
                String.length)
              1024)
            16)) :=
  analyze_missing_field ⟨["messages"], [some [⟨some "user", some "hi"⟩]]⟩
    String.length 1024 16

/-- C10 counterexample: an empty dataset that does have a `messages` column
does not return normally — it fails with the percentile index error. -/
theorem analyze_missing_field_cex :
    "messages" ∈ (["messages"] : List String) ∧
    analyze_dataset_and_configure ⟨["messages"], []⟩ String.length 1024 16
      = .error .indexError := by
  refine ⟨by simp, ?_⟩
  rfl
